import Mathlib

/-!
Shallow embedding of the backend coordination core of the Bottles repository:
`bottles/backend/state.py` (signals, tasks, locks) and
`bottles/backend/repos/repo.py` (catalog repository and readiness gates).

Conventions of the embedding:
- Python `uuid.UUID` values are modelled as `Nat`; `uuid4()` is modelled as an
  externally supplied fresh value passed as a parameter.
- Python dictionaries are modelled as association lists with first-match
  lookup and insertion-at-end on first reference (`dict.setdefault`).
- Raising an exception is modelled with `Except`: `.error msg` means the
  Python call raised; since the exception unwinds before any further
  mutation, an `.error` result carries no state change.
- `State.send_signal` calls made by backend logic are recorded in an
  emission log (`MState.emitted`); the dispatch of a signal to its
  registered handlers is modelled separately by `SignalManager` over an
  invocation trace.
-/

namespace Bottles

/-- Python enum `Status` from `state.py`. -/
inductive Status where
  | RUNNING
  | DONE
  | FAILED
deriving DecidableEq, Repr

/-- Python enum `Signals` from `state.py`. -/
inductive Signals where
  | ManagerLocalBottlesLoaded
  | RepositoryFetched
  | NetworkStatusChanged
  | GNotification
  | GShowUri
  | TaskAdded
  | TaskRemoved
  | TaskUpdated
deriving DecidableEq, Repr

/-- Python class `Result` (`bottles/backend/models/result.py` collaborator):
a success flag and a data payload. The claims only carry UUID payloads, so
`data` is `Option Nat` (`none` models Python `None`). -/
structure Result where
  status : Bool
  data : Option Nat := none
deriving DecidableEq, Repr

/-- Python dataclass `Task` from `state.py`. Field `_task_id` is `None` until
`TaskManager.add_task` assigns it; `_subtitle` is the backing store of the
`subtitle` property. -/
structure Task where
  _task_id : Option Nat := none
  title : String := "Task"
  _subtitle : String := ""
  hidden : Bool := false
  cancellable : Bool := false
deriving DecidableEq, Repr

/-- Python property getter `Task.task_id`. -/
def Task.task_id (t : Task) : Option Nat :=
  t._task_id

/-- Process-wide mutable state touched by `Task`/`TaskManager`:
`TaskManager._TASKS` (a dict from UUID to Task) and the log of
`State.send_signal(signal, data)` calls made so far. -/
structure MState where
  tasks : List (Nat × Task) := []
  emitted : List (Signals × Option Result) := []
deriving DecidableEq, Repr

/-- `State.send_signal` as observed by backend emitters: records the call in
the emission log. Handler dispatch is modelled by `SignalManager` below. -/
def State.send_signal (s : MState) (sig : Signals) (data : Option Result) : MState :=
  { s with emitted := s.emitted ++ [(sig, data)] }

/-- Python property setter `Task.subtitle`: stores the value in `_subtitle`,
then calls `State.send_signal(Signals.TaskUpdated, Result(True, self.task_id))`. -/
def Task.set_subtitle (s : MState) (t : Task) (value : String) : MState × Task :=
  let t2 : Task := { t with _subtitle := value }
  (State.send_signal s Signals.TaskUpdated (some { status := true, data := t2.task_id }), t2)

/-- Python `Task.__init__`: sets `title`, assigns `subtitle` through the
publishing property setter (so construction itself emits one `TaskUpdated`
with the not-yet-assigned `task_id`, i.e. `None`), then sets `hidden` and
`cancellable`. -/
def Task.init (s : MState) (title : String) (subtitle : String)
    (hidden : Bool) (cancellable : Bool) : MState × Task :=
  let t0 : Task :=
    { _task_id := none, title := title, _subtitle := "",
      hidden := hidden, cancellable := cancellable }
  Task.set_subtitle s t0 subtitle

/-- Python property setter `Task.task_id`: raises `NotImplementedError` when
`_task_id` is already set, otherwise stores the value. -/
def Task.set_task_id (t : Task) (value : Nat) : Except String Task :=
  if t._task_id.isSome then
    Except.error "Invalid usage, Task.task_id should only set once"
  else
    Except.ok { t with _task_id := some value }

/-- Python `TaskManager.get_task`: `cls._TASKS.get(task_id)`. -/
def TaskManager.get_task (s : MState) (task_id : Nat) : Option Task :=
  (s.tasks.find? (fun p => p.1 = task_id)).map (fun p => p.2)

/-- Python `TaskManager.add_task`: draws a fresh UUID (modelled as the
parameter `uniq`), assigns it through the `task_id` setter (which raises if
already assigned, in which case nothing was mutated), stores the task in
`_TASKS`, publishes `TaskAdded` with `Result(True, task.task_id)`, and
returns the UUID. -/
def TaskManager.add_task (s : MState) (uniq : Nat) (t : Task) :
    Except String (MState × Nat) :=
  match Task.set_task_id t uniq with
  | Except.error e => Except.error e
  | Except.ok t2 =>
      let s2 : MState := { s with tasks := s.tasks ++ [(uniq, t2)] }
      Except.ok (State.send_signal s2 Signals.TaskAdded
        (some { status := true, data := t2.task_id }), uniq)

/-- Python `TaskManager.remove_task` after resolving a `Task` argument to its
`task_id`: `cls._TASKS.pop(task)` raises `KeyError` when the key is absent
(also when the resolved id is `None`), otherwise removes the entry and
publishes `TaskRemoved` with `Result(True, task)`. -/
def TaskManager.remove_task (s : MState) (task_id : Option Nat) :
    Except String MState :=
  match task_id with
  | none => Except.error "KeyError"
  | some i =>
      if s.tasks.any (fun p => p.1 = i) then
        Except.ok (State.send_signal
          { s with tasks := s.tasks.filter (fun p => p.1 ≠ i) }
          Signals.TaskRemoved (some { status := true, data := some i }))
      else
        Except.error "KeyError"

/-- Semantics of the Python match arm `case Status.DONE, Status.FAILED:` in
`Task.stream_update`: the pattern is a sequence pattern of length two (a
tuple pattern), and the match subject is the single `status` argument of
type `Status | None`. Neither a `Status` enum member nor `None` is a
two-element sequence, so this arm never matches any actual argument. -/
def matchArmDoneFailed (_status : Option Status) : Bool :=
  false

/-- Python `Task.stream_update(received_size, total_size, status)`:
the first match arm (see `matchArmDoneFailed`) would remove the task and
return; it never matches, so control always falls through. Then if both
sizes are zero the subtitle is set to "Calculating…"; otherwise
`int(received_size / total_size * 100)` is computed — raising
`ZeroDivisionError` when `total_size == 0` — and the subtitle is set to the
percent string. Integer truncation of the non-negative ratio is modelled by
Nat floor division. -/
def Task.stream_update (s : MState) (t : Task)
    (received_size : Nat) (total_size : Nat) (status : Option Status) :
    Except String (MState × Task) :=
  if matchArmDoneFailed status then
    match TaskManager.remove_task s t.task_id with
    | Except.error e => Except.error e
    | Except.ok s2 => Except.ok (s2, t)
  else if total_size = 0 ∧ received_size = 0 then
    Except.ok (Task.set_subtitle s t "Calculating…")
  else if total_size = 0 then
    Except.error "ZeroDivisionError"
  else
    Except.ok (Task.set_subtitle s t (toString (received_size * 100 / total_size) ++ "%"))

/-- A dictionary from signal kind to the registration-ordered list of handler
identifiers (`SignalManager._SIGNALS`). Handlers are identified abstractly by
`Nat`; what the claims observe is which handler is invoked, with which
payload, in which order. -/
structure SigState where
  signals_map : List (Signals × List Nat) := []
  invocations : List (Nat × Option Result) := []
deriving DecidableEq, Repr

/-- First-match association-list lookup, the read side of a Python dict. -/
def lookupList : List (Signals × List Nat) → Signals → Option (List Nat)
  | [], _ => none
  | (k, v) :: rest, sig => if k = sig then some v else lookupList rest sig

/-- Effect of `cls._SIGNALS.setdefault(signal, []); cls._SIGNALS[signal].append(handler)`
on the dict: append to the existing entry, or create the entry at the end
with the singleton list. -/
def updateMap : List (Signals × List Nat) → Signals → Nat → List (Signals × List Nat)
  | [], sig, h => [(sig, [h])]
  | (k, v) :: rest, sig, h =>
      if k = sig then (k, v ++ [h]) :: rest
      else (k, v) :: updateMap rest sig h

/-- Python `SignalManager.connect_signal`. -/
def SignalManager.connect_signal (s : SigState) (sig : Signals) (handler : Nat) : SigState :=
  { s with signals_map := updateMap s.signals_map sig handler }

/-- Python `SignalManager.send_signal`: when no handler list is registered
for the kind, log at debug level and return (a silent no-op); otherwise call
each registered handler in list order with the same `data`, recorded as
invocation-trace entries. -/
def SignalManager.send_signal (s : SigState) (sig : Signals) (data : Option Result) : SigState :=
  match lookupList s.signals_map sig with
  | none => s
  | some fns => { s with invocations := s.invocations ++ fns.map (fun f => (f, data)) }

/-- Python decorator `LockManager.lock(name)` applied to a function, then
called: the wrapper runs `lock.acquire()` (the caller blocks until the lock
for `name` is free, then holds it), calls the wrapped function, then runs
`lock.release()` and returns the value. There is no try/finally: when the
wrapped call raises, the exception unwinds past `lock.release()`. The result
pairs the call outcome with whether the lock is still held after the call
finished. -/
def LockManager.lock_wrapper {α : Type} (func : Unit → Except String α) :
    Except String α × Bool :=
  match func () with
  | Except.ok rv => (Except.ok rv, false)
  | Except.error e => (Except.error e, true)

/-- An upsert on the `RepoStatus.EVENTS` dict viewed as name-to-is_set:
`EVENTS.setdefault(name, Event())` followed by `event.clear()` or
`event.set()` ensures an entry exists and forces its flag to `b`. -/
def eventsUpdate : List (String × Bool) → String → Bool → List (String × Bool)
  | [], name, b => [(name, b)]
  | (k, v) :: rest, name, b =>
      if k = name then (name, b) :: rest
      else (k, v) :: eventsUpdate rest name b

/-- First-match lookup of an event flag in `RepoStatus.EVENTS`. -/
def eventsLookup : List (String × Bool) → String → Option Bool
  | [], _ => none
  | (k, v) :: rest, name => if k = name then some v else eventsLookup rest name

/-- Python `RepoStatus.repo_start_operation`: `EVENTS.setdefault(name, Event()).clear()`. -/
def RepoStatus.repo_start_operation (m : List (String × Bool)) (name : String) :
    List (String × Bool) :=
  eventsUpdate m name false

/-- Python `RepoStatus.repo_done_operation`: `EVENTS.setdefault(name, Event()).set()`. -/
def RepoStatus.repo_done_operation (m : List (String × Bool)) (name : String) :
    List (String × Bool) :=
  eventsUpdate m name true

/-- Whether `RepoStatus.repo_wait_operation(name)` returns without blocking:
`EVENTS.setdefault(name, Event()).wait()` returns immediately iff the event
is already set; a freshly created event (absent key) is not set, so the
caller blocks. -/
def RepoStatus.repo_wait_unblocked (m : List (String × Bool)) (name : String) : Bool :=
  (eventsLookup m name).getD false

/-- A Python value as returned by `yaml.load` or `bytes.decode`: enough
structure for the manifest and catalog claims (a string, or a dict). The
empty mapping `{}` is `PyVal.dict []`. -/
inductive PyVal where
  | str : String → PyVal
  | dict : List (String × PyVal) → PyVal

/-- The exception kinds caught by `except (pycurl.error, yaml.YAMLError)` in
`repo.py`: a pycurl transport error or a YAML parse error. -/
inductive FetchErr where
  | curl
  | yaml
deriving DecidableEq, Repr

/-- Python `Repo.get_manifest(url, plain)`, parametrised by the HTTP
transport (the pycurl GET with FOLLOWLOCATION, returning the response body
or raising a transport error) and the `yaml.load` codec. The whole body is
inside `try`, and `except (pycurl.error, yaml.YAMLError)` logs one error and
returns `{}` — in plain mode as well. The second component counts
`logging.error` calls. -/
def Repo.get_manifest (transport : String → Except FetchErr String)
    (yamlLoad : String → Except FetchErr PyVal)
    (url : String) (plain : Bool) : Except FetchErr PyVal × Nat :=
  match transport url with
  | Except.error _ => (Except.ok (PyVal.dict []), 1)
  | Except.ok res =>
      if plain then (Except.ok (PyVal.str res), 0)
      else
        match yamlLoad res with
        | Except.error _ => (Except.ok (PyVal.dict []), 1)
        | Except.ok v => (Except.ok v, 0)

/-- Python `Repo._Repo__get_catalog(index, offline)`: first calls
`repo_start_operation(name + ".fetching")`; when `index in ["", None]` or
`offline` it returns `{}` with no network access; otherwise it performs one
HTTP GET and parses the body, and on a caught transport/parse error logs and
returns `{}`. Result: the catalog value, the updated events dict, and the
number of network calls performed. -/
def Repo.get_catalog (transport : String → Except FetchErr String)
    (yamlLoad : String → Except FetchErr PyVal)
    (name : String) (events : List (String × Bool))
    (index : Option String) (offline : Bool) :
    PyVal × List (String × Bool) × Nat :=
  let events1 := RepoStatus.repo_start_operation events (name ++ ".fetching")
  if index = some "" ∨ index = none ∨ offline then
    (PyVal.dict [], events1, 0)
  else
    match index with
    | none => (PyVal.dict [], events1, 0)
    | some idx =>
        match transport idx with
        | Except.error _ => (PyVal.dict [], events1, 1)
        | Except.ok body =>
            match yamlLoad body with
            | Except.error _ => (PyVal.dict [], events1, 1)
            | Except.ok v => (v, events1, 1)

/-- Observable outcome of constructing a `Repo` once its asynchronous fetch
has resolved: the stored `catalog`, the events dict, the number of network
calls, and how many times the completion callback ran. -/
structure RepoResult where
  catalog : PyVal
  events : List (String × Bool)
  netCalls : Nat
  callbackCalls : Nat

/-- Python `Repo.__init__(url, index, offline, callback)` up to resolution of
the background fetch scheduled through `RunAsync`: `__get_catalog` runs, then
`set_catalog(result)` stores the result as `self.catalog`, calls
`repo_done_operation(name + ".fetching")`, and invokes the supplied callback
once when present. The asynchronous scheduling itself is an external
collaborator; the embedding composes the work with its completion callback
sequentially. -/
def Repo.init (transport : String → Except FetchErr String)
    (yamlLoad : String → Except FetchErr PyVal)
    (name : String) (events : List (String × Bool))
    (index : Option String) (offline : Bool) (hasCallback : Bool) : RepoResult :=
  let r := Repo.get_catalog transport yamlLoad name events index offline
  { catalog := r.1,
    events := RepoStatus.repo_done_operation r.2.1 (name ++ ".fetching"),
    netCalls := r.2.2,
    callbackCalls := if hasCallback then 1 else 0 }

/-- Iterate the `subtitle` property setter over a list of values: models a
caller assigning `task.subtitle = v` once per element of `vs`, in order. -/
def Task.set_subtitles (s : MState) (t : Task) (vs : List String) : MState × Task :=
  vs.foldl (fun p v => Task.set_subtitle p.1 p.2 v) (s, t)

/-- The handler identifiers registered for `sig` by a sequence of
`connect_signal(sig, handler)` calls, in registration order: the
subsequence of `regs` whose kind is `sig`, projected to the handlers. -/
def handlersOf : List (Signals × Nat) → Signals → List Nat
  | [], _ => []
  | r :: rest, sig =>
      if r.1 = sig then r.2 :: handlersOf rest sig else handlersOf rest sig

/-- Run a sequence of `SignalManager.connect_signal` registrations in order. -/
def registerAll (s : SigState) (regs : List (Signals × Nat)) : SigState :=
  regs.foldl (fun st r => SignalManager.connect_signal st r.1 r.2) s

theorem set_subtitles_spec (vs : List String) (s : MState) (t : Task) :
    (Task.set_subtitles s t vs).1.emitted =
      s.emitted ++ vs.map (fun _ =>
        (Signals.TaskUpdated, some ({ status := true, data := t._task_id } : Result))) ∧
    (Task.set_subtitles s t vs).2._task_id = t._task_id ∧
    (Task.set_subtitles s t vs).1.tasks = s.tasks := by
  induction vs generalizing s t with
  | nil => simp [Task.set_subtitles]
  | cons v rest ih =>
      have h1 : Task.set_subtitles s t (v :: rest)
          = Task.set_subtitles (Task.set_subtitle s t v).1 (Task.set_subtitle s t v).2 rest := rfl
      obtain ⟨he, hid, htk⟩ := ih (Task.set_subtitle s t v).1 (Task.set_subtitle s t v).2
      rw [h1]
      refine ⟨?_, ?_, ?_⟩
      · rw [he]
        simp [Task.set_subtitle, State.send_signal, Task.task_id]
      · rw [hid]
        rfl
      · rw [htk]
        rfl

/-- C1 (code defect evaluation): at the failing input — a registered task
with id 1 and `stream_update(received_size := 0, total_size := 0,
status := Status.DONE)` — the code leaves the task in the registry and sets
its subtitle to "Calculating…" (emitting a `TaskUpdated`), because the match
arm `case Status.DONE, Status.FAILED:` is a two-element sequence pattern
that a single `Status` value never matches; the claim (and the spec's stated
intent) is that a terminal status deregisters the task without touching the
subtitle. -/
theorem claim_C1_terminal_status_eval :
    Task.stream_update
      { tasks := [(1, { _task_id := some 1 })], emitted := [] }
      { _task_id := some 1 } 0 0 (some Status.DONE)
    = Except.ok
        ({ tasks := [(1, { _task_id := some 1 })],
           emitted := [(Signals.TaskUpdated, some { status := true, data := some 1 })] },
         { _task_id := some 1, _subtitle := "Calculating…" }) := by
  rfl

/-- C4 (counterexample): with no terminal status, `received_size = 5` and
`total_size = 0`, `stream_update` raises `ZeroDivisionError` to the caller —
the division is not guarded, contrary to the claim. -/
theorem claim_C4_counterexample :
    Task.stream_update { tasks := [], emitted := [] } { _task_id := some 2 } 5 0 none
      = Except.error "ZeroDivisionError" := by
  rfl

/-- C4 (amended): for every call to `stream_update` (whose terminal-status
arm never fires): if both sizes are zero the subtitle is set to
"Calculating…"; if `total_size = 0` with `received_size > 0` a
`ZeroDivisionError` propagates to the caller; otherwise the subtitle is set
to the integer percent string. -/
theorem claim_C4_progress_subtitle (s : MState) (t : Task)
    (received_size total_size : Nat) (status : Option Status) :
    (total_size = 0 → received_size = 0 →
       Task.stream_update s t received_size total_size status
         = Except.ok (Task.set_subtitle s t "Calculating…")) ∧
    (total_size = 0 → 0 < received_size →
       Task.stream_update s t received_size total_size status
         = Except.error "ZeroDivisionError") ∧
    (0 < total_size →
       Task.stream_update s t received_size total_size status
         = Except.ok (Task.set_subtitle s t
             (toString (received_size * 100 / total_size) ++ "%"))) := by
  refine ⟨fun h0 h1 => ?_, fun h0 h1 => ?_, fun h0 => ?_⟩
  · subst h0; subst h1
    simp [Task.stream_update, matchArmDoneFailed]
  · subst h0
    simp [Task.stream_update, matchArmDoneFailed, Nat.pos_iff_ne_zero.mp h1]
  · simp [Task.stream_update, matchArmDoneFailed, Nat.pos_iff_ne_zero.mp h0]

/-- C4 witness: concrete progress call, 1 of 4 bytes received gives "25%". -/
theorem claim_C4_progress_subtitle_witness :
    Task.stream_update { tasks := [], emitted := [] } { _task_id := some 3 } 1 4 none
      = Except.ok (Task.set_subtitle { tasks := [], emitted := [] } { _task_id := some 3 }
          (toString (1 * 100 / 4) ++ "%")) :=
  (claim_C4_progress_subtitle { tasks := [], emitted := [] } { _task_id := some 3 }
    1 4 none).2.2 (by decide)

/-- C7: `add_task` on a task with an unassigned id stores the task under the
fresh id, publishes `TaskAdded` carrying that id, and returns it; on a task
whose id is already assigned it raises (so, the exception unwinding before
any mutation, the registry is unchanged and no signal is published). -/
theorem claim_C7_add_task (s : MState) (uniq : Nat) (t : Task) :
    (t._task_id = none →
       TaskManager.add_task s uniq t =
         Except.ok
           ({ tasks := s.tasks ++ [(uniq, { t with _task_id := some uniq })],
              emitted := s.emitted ++
                [(Signals.TaskAdded, some { status := true, data := some uniq })] },
            uniq)) ∧
    (t._task_id ≠ none →
       TaskManager.add_task s uniq t
         = Except.error "Invalid usage, Task.task_id should only set once") := by
  constructor
  · intro h
    simp [TaskManager.add_task, Task.set_task_id, h, State.send_signal, Task.task_id]
  · intro h
    simp [TaskManager.add_task, Task.set_task_id, Option.isSome_iff_ne_none.mpr h]

/-- C7 witness: registering a fresh default task under id 7. -/
theorem claim_C7_add_task_witness :
    TaskManager.add_task { tasks := [], emitted := [] } 7 { } =
      Except.ok
        ({ tasks := [(7, { _task_id := some 7 })],
           emitted := [(Signals.TaskAdded, some { status := true, data := some 7 })] }, 7) :=
  (claim_C7_add_task { tasks := [], emitted := [] } 7 { }).1 rfl

/-- C8: on a task whose identifier is assigned (`some i`), setting the
subtitle once per element of `vs` appends exactly `vs.length` entries to the
emission log, every one a `TaskUpdated` carrying `Result(True, i)`. -/
theorem claim_C8_subtitle_signals (s : MState) (t : Task) (i : Nat) (vs : List String)
    (h : t._task_id = some i) :
    (Task.set_subtitles s t vs).1.emitted =
      s.emitted ++ vs.map (fun _ =>
        (Signals.TaskUpdated, some ({ status := true, data := some i } : Result))) := by
  have he := (set_subtitles_spec vs s t).1
  rw [he, h]

/-- C8 witness: two subtitle mutations on a task with id 1 publish two
`TaskUpdated` signals carrying id 1. -/
theorem claim_C8_subtitle_signals_witness :
    (Task.set_subtitles { tasks := [], emitted := [] } { _task_id := some 1 }
        ["a", "b"]).1.emitted =
      [(Signals.TaskUpdated, some { status := true, data := some 1 }),
       (Signals.TaskUpdated, some { status := true, data := some 1 })] := by
  have h := claim_C8_subtitle_signals { tasks := [], emitted := [] }
    { _task_id := some 1 } 1 ["a", "b"] rfl
  simpa using h

/-- C10: constructing a `Task` publishes exactly one `TaskUpdated` whose
payload identifier is the not-yet-assigned `none` (the constructor assigns
the subtitle through the publishing setter), and after `vs.length` further
subtitle mutations the emission log holds `vs.length + 1` entries. -/
theorem claim_C10_init_signal (title subtitle : String)
    (hidden cancellable : Bool) (vs : List String) :
    (Task.init { tasks := [], emitted := [] } title subtitle hidden cancellable).1.emitted
      = [(Signals.TaskUpdated, some { status := true, data := none })] ∧
    (Task.set_subtitles
        (Task.init { tasks := [], emitted := [] } title subtitle hidden cancellable).1
        (Task.init { tasks := [], emitted := [] } title subtitle hidden cancellable).2
        vs).1.emitted.length
      = vs.length + 1 := by
  constructor
  · rfl
  · have he := (set_subtitles_spec vs
      (Task.init { tasks := [], emitted := [] } title subtitle hidden cancellable).1
      (Task.init { tasks := [], emitted := [] } title subtitle hidden cancellable).2).1
    rw [he]
    simp [Task.init, Task.set_subtitle, State.send_signal]

theorem eventsLookup_update (m : List (String × Bool)) (name name2 : String) (b : Bool) :
    eventsLookup (eventsUpdate m name b) name2
      = if name2 = name then some b else eventsLookup m name2 := by
  induction m with
  | nil =>
      by_cases hn : name2 = name
      · simp [eventsUpdate, eventsLookup, hn]
      · simp [eventsUpdate, eventsLookup, hn, Ne.symm hn]
  | cons kv rest ih =>
      obtain ⟨k, v⟩ := kv
      by_cases hk : k = name
      · subst hk
        by_cases hn : name2 = k
        · simp [eventsUpdate, eventsLookup, hn]
        · simp [eventsUpdate, eventsLookup, hn, Ne.symm hn]
      · by_cases hn : name2 = name
        · subst hn
          simp [eventsUpdate, eventsLookup, hk, ih, Ne.symm hk]
        · simp [eventsUpdate, eventsLookup, hk, ih, hn]

/-- C2 (counterexample): a wrapped call that raises leaves the lock held
after the call — the claim that the lock is free again on every exit path
fails on the exceptional path (there is no try/finally in the wrapper). -/
theorem claim_C2_counterexample :
    LockManager.lock_wrapper (fun _ => (Except.error "boom" : Except String Nat))
      = (Except.error "boom", true) := by
  rfl

/-- C2 (amended): the lock is released when the wrapped function returns
normally; when the wrapped function raises, the exception propagates to the
caller and the lock remains held. -/
theorem claim_C2_lock_release {α : Type} (func : Unit → Except String α) :
    (∀ rv, func () = Except.ok rv →
       LockManager.lock_wrapper func = (Except.ok rv, false)) ∧
    (∀ e, func () = Except.error e →
       LockManager.lock_wrapper func = (Except.error e, true)) := by
  constructor
  · intro rv h
    simp [LockManager.lock_wrapper, h]
  · intro e h
    simp [LockManager.lock_wrapper, h]

/-- C2 witness: concrete normal and raising wrapped calls. -/
theorem claim_C2_lock_release_witness :
    LockManager.lock_wrapper (fun _ => (Except.ok 7 : Except String Nat))
        = (Except.ok 7, false) ∧
    LockManager.lock_wrapper (fun _ => (Except.error "oops" : Except String Nat))
        = (Except.error "oops", true) :=
  ⟨(claim_C2_lock_release (fun _ => Except.ok 7)).1 7 rfl,
   (claim_C2_lock_release (fun _ => Except.error "oops")).2 "oops" rfl⟩

/-- C3 (counterexample): with a transport that raises a transport error,
`get_manifest` in plain mode returns the empty mapping (and logs one error)
instead of propagating the failure, contrary to the claim. -/
theorem claim_C3_counterexample :
    Repo.get_manifest (fun _ => Except.error FetchErr.curl)
      (fun s => Except.ok (PyVal.str s)) "https://example.org/manifest" true
      = (Except.ok (PyVal.dict []), 1) := by
  rfl

/-- C3 (amended): for every URL and in both modes (plain and non-plain),
when the transport raises a transport error `get_manifest` swallows it,
logging exactly one error and returning the empty mapping. -/
theorem claim_C3_get_manifest_swallow (transport : String → Except FetchErr String)
    (yamlLoad : String → Except FetchErr PyVal) (url : String) (plain : Bool)
    (h : transport url = Except.error FetchErr.curl) :
    Repo.get_manifest transport yamlLoad url plain = (Except.ok (PyVal.dict []), 1) := by
  simp [Repo.get_manifest, h]

/-- C3 witness: non-plain mode with an always-raising transport. -/
theorem claim_C3_get_manifest_swallow_witness :
    Repo.get_manifest (fun _ => Except.error FetchErr.curl)
      (fun _ => Except.ok (PyVal.dict [])) "u" false
      = (Except.ok (PyVal.dict []), 1) :=
  claim_C3_get_manifest_swallow (fun _ => Except.error FetchErr.curl)
    (fun _ => Except.ok (PyVal.dict [])) "u" false rfl

/-- C5: `repo_done_operation(N)` leaves the gate for `N` signaled even when
no `repo_start_operation(N)` ever ran, so a wait returns without blocking;
after `start(N)` then `done(N)` the gate is signaled; the next `start(N)`
clears it back to not-signaled; and operations on a different name leave
the gate for `N` untouched. -/
theorem claim_C5_gate (m : List (String × Bool)) (n n2 : String) :
    RepoStatus.repo_wait_unblocked (RepoStatus.repo_done_operation m n) n = true ∧
    RepoStatus.repo_wait_unblocked
      (RepoStatus.repo_done_operation (RepoStatus.repo_start_operation m n) n) n = true ∧
    RepoStatus.repo_wait_unblocked (RepoStatus.repo_start_operation m n) n = false ∧
    (n2 ≠ n →
      RepoStatus.repo_wait_unblocked (RepoStatus.repo_done_operation m n2) n
          = RepoStatus.repo_wait_unblocked m n ∧
      RepoStatus.repo_wait_unblocked (RepoStatus.repo_start_operation m n2) n
          = RepoStatus.repo_wait_unblocked m n) := by
  refine ⟨?_, ?_, ?_, fun h => ⟨?_, ?_⟩⟩
  all_goals
    first
    | simp [RepoStatus.repo_wait_unblocked, RepoStatus.repo_done_operation,
        RepoStatus.repo_start_operation, eventsLookup_update, Ne.symm h]
    | simp [RepoStatus.repo_wait_unblocked, RepoStatus.repo_done_operation,
        RepoStatus.repo_start_operation, eventsLookup_update]

/-- C5 witness: done-before-start signals the gate for "a.fetching", and a
done on the other name "b.fetching" does not affect it. -/
theorem claim_C5_gate_witness :
    RepoStatus.repo_wait_unblocked
        (RepoStatus.repo_done_operation [] "a.fetching") "a.fetching" = true ∧
    RepoStatus.repo_wait_unblocked
        (RepoStatus.repo_done_operation [] "b.fetching") "a.fetching"
      = RepoStatus.repo_wait_unblocked [] "a.fetching" :=
  ⟨(claim_C5_gate [] "a.fetching" "b.fetching").1,
   ((claim_C5_gate [] "a.fetching" "b.fetching").2.2.2 (by decide)).1⟩

/-- C6: when the index is empty or None, or the offline flag is set, and a
completion callback is supplied, the resolved construction performs no
network call, stores the empty mapping as the catalog, leaves the gate
"name.fetching" signaled (a wait returns without blocking), and runs the
callback exactly once. -/
theorem claim_C6_offline_fetch (transport : String → Except FetchErr String)
    (yamlLoad : String → Except FetchErr PyVal) (name : String)
    (events : List (String × Bool)) (index : Option String) (offline : Bool)
    (h : index = some "" ∨ index = none ∨ offline = true) :
    (Repo.init transport yamlLoad name events index offline true).catalog
        = PyVal.dict [] ∧
    (Repo.init transport yamlLoad name events index offline true).netCalls = 0 ∧
    RepoStatus.repo_wait_unblocked
      (Repo.init transport yamlLoad name events index offline true).events
      (name ++ ".fetching") = true ∧
    (Repo.init transport yamlLoad name events index offline true).callbackCalls = 1 := by
  have hc : Repo.get_catalog transport yamlLoad name events index offline
      = (PyVal.dict [], RepoStatus.repo_start_operation events (name ++ ".fetching"), 0) := by
    rcases h with h | h | h <;> simp [Repo.get_catalog, h]
  refine ⟨?_, ?_, ?_, ?_⟩ <;>
    simp [Repo.init, hc, RepoStatus.repo_wait_unblocked, RepoStatus.repo_done_operation,
      eventsLookup_update]

/-- C6 witness: offline construction of the "components" repository. -/
theorem claim_C6_offline_fetch_witness :
    (Repo.init (fun _ => Except.error FetchErr.curl) (fun _ => Except.ok (PyVal.dict []))
        "components" [] (some "https://example.org/index.yml") true true).catalog
        = PyVal.dict [] ∧
    (Repo.init (fun _ => Except.error FetchErr.curl) (fun _ => Except.ok (PyVal.dict []))
        "components" [] (some "https://example.org/index.yml") true true).netCalls = 0 ∧
    RepoStatus.repo_wait_unblocked
      (Repo.init (fun _ => Except.error FetchErr.curl) (fun _ => Except.ok (PyVal.dict []))
        "components" [] (some "https://example.org/index.yml") true true).events
      ("components" ++ ".fetching") = true ∧
    (Repo.init (fun _ => Except.error FetchErr.curl) (fun _ => Except.ok (PyVal.dict []))
        "components" [] (some "https://example.org/index.yml") true true).callbackCalls = 1 :=
  claim_C6_offline_fetch (fun _ => Except.error FetchErr.curl)
    (fun _ => Except.ok (PyVal.dict [])) "components" []
    (some "https://example.org/index.yml") true (Or.inr (Or.inr rfl))

theorem lookupList_updateMap (m : List (Signals × List Nat)) (sig sig2 : Signals) (h : Nat) :
    lookupList (updateMap m sig h) sig2
      = if sig2 = sig then some ((lookupList m sig).getD [] ++ [h])
        else lookupList m sig2 := by
  induction m with
  | nil =>
      by_cases hs : sig2 = sig
      · simp [updateMap, lookupList, hs]
      · simp [updateMap, lookupList, hs, Ne.symm hs]
  | cons kv rest ih =>
      obtain ⟨k, v⟩ := kv
      by_cases hk : k = sig
      · subst hk
        by_cases hs : sig2 = k
        · simp [updateMap, lookupList, hs]
        · simp [updateMap, lookupList, hs, Ne.symm hs]
      · by_cases hs : sig2 = sig
        · subst hs
          simp [updateMap, lookupList, hk, ih, Ne.symm hk]
        · simp [updateMap, lookupList, hk, ih, hs]

theorem invocations_registerAll (regs : List (Signals × Nat)) (s : SigState) :
    (registerAll s regs).invocations = s.invocations := by
  induction regs generalizing s with
  | nil => rfl
  | cons r rest ih =>
      have hstep : registerAll s (r :: rest)
          = registerAll (SignalManager.connect_signal s r.1 r.2) rest := rfl
      rw [hstep, ih]
      rfl

theorem lookupList_registerAll (regs : List (Signals × Nat)) (s : SigState) (sig : Signals) :
    lookupList (registerAll s regs).signals_map sig
      = match lookupList s.signals_map sig with
        | some xs => some (xs ++ handlersOf regs sig)
        | none =>
            if handlersOf regs sig = [] then none else some (handlersOf regs sig) := by
  induction regs generalizing s with
  | nil =>
      cases hx : lookupList s.signals_map sig <;> simp [registerAll, handlersOf, hx]
  | cons r rest ih =>
      obtain ⟨sg, hd⟩ := r
      have hstep : registerAll s ((sg, hd) :: rest)
          = registerAll (SignalManager.connect_signal s sg hd) rest := rfl
      rw [hstep, ih]
      by_cases hs : sig = sg
      · subst hs
        cases hx : lookupList s.signals_map sig <;>
          simp [SignalManager.connect_signal, lookupList_updateMap, hx, handlersOf]
      · cases hx : lookupList s.signals_map sig <;>
          simp [SignalManager.connect_signal, lookupList_updateMap, hx, handlersOf,
            hs, Ne.symm hs]

/-- C9: starting from the empty registry, after any sequence of
`connect_signal` registrations, `send_signal(sig, data)` invokes exactly the
handlers registered for `sig` — once each, in registration order, each
receiving the same payload `data`; and when no handler was registered for
`sig`, `send_signal` is a silent no-op returning with the state unchanged. -/
theorem claim_C9_send_signal (regs : List (Signals × Nat)) (sig : Signals)
    (data : Option Result) :
    (SignalManager.send_signal
        (registerAll { signals_map := [], invocations := [] } regs) sig data).invocations
      = (handlersOf regs sig).map (fun f => (f, data)) ∧
    (handlersOf regs sig = [] →
      SignalManager.send_signal
          (registerAll { signals_map := [], invocations := [] } regs) sig data
        = registerAll { signals_map := [], invocations := [] } regs) := by
  have hlook : lookupList
      (registerAll { signals_map := [], invocations := [] } regs).signals_map sig
      = if handlersOf regs sig = [] then none else some (handlersOf regs sig) :=
    lookupList_registerAll regs { signals_map := [], invocations := [] } sig
  have hinv := invocations_registerAll regs { signals_map := [], invocations := [] }
  by_cases hh : handlersOf regs sig = []
  · have hl : lookupList
        (registerAll { signals_map := [], invocations := [] } regs).signals_map sig
        = none := by rw [hlook, if_pos hh]
    constructor
    · simp [SignalManager.send_signal, hl, hinv, hh]
    · intro _
      simp [SignalManager.send_signal, hl]
  · have hl : lookupList
        (registerAll { signals_map := [], invocations := [] } regs).signals_map sig
        = some (handlersOf regs sig) := by rw [hlook, if_neg hh]
    constructor
    · simp [SignalManager.send_signal, hl, hinv]
    · intro hcon
      exact absurd hcon hh

/-- C9 witness: three registrations, two of them for `TaskAdded`; sending
`TaskAdded` invokes handlers 10 and 12 in that order with the payload, and
sending `GShowUri` (no handler) leaves the state unchanged. -/
theorem claim_C9_send_signal_witness :
    (SignalManager.send_signal
        (registerAll { signals_map := [], invocations := [] }
          [(Signals.TaskAdded, 10), (Signals.TaskUpdated, 11), (Signals.TaskAdded, 12)])
        Signals.TaskAdded (some { status := true, data := some 1 })).invocations
      = [(10, some { status := true, data := some 1 }),
         (12, some { status := true, data := some 1 })] ∧
    SignalManager.send_signal
        (registerAll { signals_map := [], invocations := [] } [(Signals.TaskAdded, 10)])
        Signals.GShowUri none
      = registerAll { signals_map := [], invocations := [] } [(Signals.TaskAdded, 10)] := by
  constructor
  · have h := (claim_C9_send_signal
      [(Signals.TaskAdded, 10), (Signals.TaskUpdated, 11), (Signals.TaskAdded, 12)]
      Signals.TaskAdded (some { status := true, data := some 1 })).1
    exact h.trans (by decide)
  · exact (claim_C9_send_signal [(Signals.TaskAdded, 10)] Signals.GShowUri none).2
      (by decide)

end Bottles
